import Mathlib

/-!
Shallow embedding of the Amazon job scraper (`src/scraper.py`).

The embedded core consists of:
* the seen-jobs ledger (`seen_jobs` SQLite table) and its operations
  `is_job_seen`, `mark_job_as_seen` (INSERT OR REPLACE) and
  `cleanup_old_jobs`;
* the posted-date parsing loop and freshness check `is_recent_job`;
* the filtering pipeline `filter_sde1_jobs`;
* the cycle controller `run_scraping_cycle`, with the network fetch and the
  Telegram delivery treated as oracles (a `FetchOutcome` value and a
  `notify : NotifiableJob → Bool` function).

Wall-clock instants are modelled at one-second granularity as civil
date-times (`PyDateTime`), converted to seconds since the Unix epoch by
`toSeconds` for timedelta arithmetic.
-/

/-- A civil date-time as produced by `datetime.now()` / `datetime.strptime`,
at one-second granularity. -/
structure PyDateTime where
  year : Nat
  month : Nat
  day : Nat
  hour : Nat
  minute : Nat
  second : Nat
deriving DecidableEq, Repr

/-- Days from 1970-01-01 to the given civil date (Howard Hinnant's
`days_from_civil` algorithm, restricted to years ≥ 1, which covers the
whole `datetime` range). -/
def daysFromCivil (year month day : Nat) : Int :=
  let y := if month ≤ 2 then year - 1 else year
  let era := y / 400
  let yoe := y % 400
  let mp := if month > 2 then month - 3 else month + 9
  let doy := (153 * mp + 2) / 5 + day - 1
  let doe := yoe * 365 + yoe / 4 - yoe / 100 + doy
  (era : Int) * 146097 + (doe : Int) - 719468

/-- Seconds since the Unix epoch of a civil date-time; `t2 - t1` in this
scale is `(t2 - t1).total_seconds()` of the corresponding datetimes. -/
def toSeconds (t : PyDateTime) : Int :=
  daysFromCivil t.year t.month t.day * 86400
    + (t.hour : Int) * 3600 + (t.minute : Int) * 60 + (t.second : Int)

/-- A raw job record as found in the `jobs` array of the API response.
Each field models the presence or absence of the corresponding dict key
(read in the source with `job.get(key, default)`). -/
structure JobRecord where
  id_icims : Option String
  title : Option String
  location : Option String
  posted_date : Option String
deriving DecidableEq, Repr

/-- The `job_data` dict built by `filter_sde1_jobs` for a record that passed
all three checks. -/
structure NotifiableJob where
  job_id : String
  title : String
  location : String
  posted_date : String
  url : String
deriving DecidableEq, Repr

/-- A row of the `seen_jobs` table.  `created_at` is the UTC wall-time
instant captured by the column's `DEFAULT CURRENT_TIMESTAMP`, kept here in
epoch seconds; the TEXT value the database actually stores and compares is
its rendering `sqliteTimestamp created_at` (defined below). -/
structure LedgerEntry where
  job_id : String
  title : String
  location : String
  posted_date : String
  created_at : Int
deriving DecidableEq, Repr

/-- The `seen_jobs` table, as the list of its rows. -/
abbrev Ledger := List LedgerEntry

/-- `is_job_seen`: `SELECT 1 FROM seen_jobs WHERE job_id = ?` has a row. -/
def is_job_seen (l : Ledger) (job_id : String) : Bool :=
  l.any fun e => decide (e.job_id = job_id)

/-- The row written for `job_data` at write time `t`. -/
def entryOf (jd : NotifiableJob) (t : PyDateTime) : LedgerEntry :=
  { job_id := jd.job_id, title := jd.title, location := jd.location,
    posted_date := jd.posted_date, created_at := toSeconds t }

/-- `mark_job_as_seen`: `INSERT OR REPLACE INTO seen_jobs ...`.  SQLite
deletes any existing row with the same primary key and inserts the new row;
`created_at` is not in the column list, so it takes its default
`CURRENT_TIMESTAMP` (the write time `t`). -/
def mark_job_as_seen (l : Ledger) (jd : NotifiableJob) (t : PyDateTime) : Ledger :=
  l.filter (fun e => !decide (e.job_id = jd.job_id)) ++ [entryOf jd t]

/-- The row returned by a lookup on a primary key. -/
def getEntry (l : Ledger) (job_id : String) : Option LedgerEntry :=
  l.find? fun e => decide (e.job_id = job_id)

/-- Outcome of `cleanup_old_jobs`: the surviving table, the `rowcount` of
the DELETE (which the source only logs), and the Python function's return
value, which is `None` (the body has no return statement). -/
structure CleanupResult where
  ledger : Ledger
  deleted_count : Nat
  returned : Option Nat
deriving DecidableEq, Repr

/-!
The DELETE of `cleanup_old_jobs` does not compare instants.  `created_at`
is filled by SQLite's `DEFAULT CURRENT_TIMESTAMP`, a TEXT value
`YYYY-MM-DD HH:MM:SS` in UTC (the declared type `TIMESTAMP` gives NUMERIC
affinity and the string is not numeric, so it is stored and compared as
TEXT).  The bound parameter is
`(datetime.now() - timedelta(days=days_old)).isoformat()`, a local-time
string `YYYY-MM-DDTHH:MM:SS[.ffffff]`.  SQLite compares the two TEXT
values with the BINARY collation, i.e. bytewise; both are ASCII so this is
lexicographic comparison of their characters.  Since the strings agree in
layout up to position 9 (the zero-padded date) and the separator at
position 10 is a space (0x20) on the stored side and `T` (0x54) on the
cutoff side, the comparison is decided by the date prefixes, and a stored
row from the cutoff's own calendar day always compares less (space sorts
before `T`); the fractional-second suffix of the cutoff is never reached.
The definitions below render both strings from the instants and compare
them lexicographically, exactly as the database does.  The stored instant
is UTC wall time while `now` is the local clock; the model keeps both as
plain instants and quantifies over them, so the environment-dependent
offset between the two clocks is absorbed by the quantifiers.
-/

/-- The decimal digit character for `n ≤ 9`. -/
def digitChar (n : Nat) : Char := Char.ofNat (48 + n)

/-- Two-digit zero-padded decimal rendering of `n ≤ 99`. -/
def pad2 (n : Nat) : List Char := [digitChar (n / 10), digitChar (n % 10)]

/-- Four-digit zero-padded decimal rendering of `n ≤ 9999`. -/
def pad4 (n : Nat) : List Char := pad2 (n / 100) ++ pad2 (n % 100)

/-- Bytewise (memcmp-style) comparison of ASCII character lists, as done
by SQLite's BINARY collation on TEXT values. -/
def listLt : List Char → List Char → Bool
  | [], [] => false
  | [], _ :: _ => true
  | _ :: _, [] => false
  | a :: as, b :: bs => if a < b then true else if b < a then false else listLt as bs

/-- Bytewise comparison of two ASCII strings. -/
def strLt (a b : String) : Bool := listLt a.data b.data

/-- Civil date of a day number (days since 1970-01-01); Howard Hinnant's
`civil_from_days`, valid for day numbers of years 1–9999. -/
def civilFromDays (z : Int) : Nat × Nat × Nat :=
  let z2 := z + 719468
  let era := Int.ediv z2 146097
  let doe := (Int.emod z2 146097).toNat
  let yoe := (doe - doe / 1460 + doe / 36524 - doe / 146096) / 365
  let y : Int := (yoe : Int) + era * 400
  let doy := doe - (365 * yoe + yoe / 4 - yoe / 100)
  let mp := (5 * doy + 2) / 153
  let d := doy - (153 * mp + 2) / 5 + 1
  let m := if mp < 10 then mp + 3 else mp - 9
  ((if m ≤ 2 then y + 1 else y).toNat, m, d)

/-- The civil calendar date of an epoch-second instant. -/
def dateTriple (secs : Int) : Nat × Nat × Nat := civilFromDays (Int.ediv secs 86400)

/-- The `YYYY-MM-DD` rendering of a civil date. -/
def dateChars (t : Nat × Nat × Nat) : List Char :=
  pad4 t.1 ++ '-' :: pad2 t.2.1 ++ '-' :: pad2 t.2.2

/-- The `HH:MM:SS` rendering of the time of day of an instant. -/
def timeChars (secs : Int) : List Char :=
  let tod := (Int.emod secs 86400).toNat
  pad2 (tod / 3600) ++ ':' :: pad2 (tod / 60 % 60) ++ ':' :: pad2 (tod % 60)

/-- The TEXT value SQLite's `CURRENT_TIMESTAMP` stores for an instant:
`YYYY-MM-DD HH:MM:SS`. -/
def sqliteTimestamp (secs : Int) : String :=
  String.mk (dateChars (dateTriple secs) ++ ' ' :: timeChars secs)

/-- `datetime.isoformat()` of an instant at whole-second granularity:
`YYYY-MM-DDTHH:MM:SS`.  A real `datetime.now()`-derived cutoff usually
carries a `.ffffff` suffix, but the comparison against a stored timestamp
is always decided at or before the `T`/space separator, so the suffix is
unreachable and the whole-second rendering is faithful. -/
def pyIsoformat (secs : Int) : String :=
  String.mk (dateChars (dateTriple secs) ++ 'T' :: timeChars secs)

/-- Strict "earlier calendar day" order on civil dates. -/
def dateBefore (t1 t2 : Nat × Nat × Nat) : Prop :=
  t1.1 < t2.1 ∨ (t1.1 = t2.1 ∧ (t1.2.1 < t2.2.1 ∨ (t1.2.1 = t2.2.1 ∧ t1.2.2 < t2.2.2)))

/-- The component bounds under which `dateChars` is the genuine zero-padded
rendering (all dates of years 1–9999 satisfy them). -/
def tripleInRange (t : Nat × Nat × Nat) : Prop :=
  t.1 ≤ 9999 ∧ t.2.1 ≤ 99 ∧ t.2.2 ≤ 99

instance (t : Nat × Nat × Nat) : Decidable (tripleInRange t) := by
  unfold tripleInRange
  infer_instance

instance (t1 t2 : Nat × Nat × Nat) : Decidable (dateBefore t1 t2) := by
  unfold dateBefore
  infer_instance

/-- `cleanup_old_jobs`: `DELETE FROM seen_jobs WHERE created_at < ?` with
the bound parameter `(datetime.now() - timedelta(days=days_old)).isoformat()`,
a lexicographic TEXT comparison of the stored `CURRENT_TIMESTAMP` string
against the cutoff's isoformat string (see the section comment above). -/
def cleanup_old_jobs (l : Ledger) (now : PyDateTime) (days_old : Nat) : CleanupResult :=
  let cutoff : String := pyIsoformat (toSeconds now - (days_old : Int) * 86400)
  { ledger := l.filter fun e => !strLt (sqliteTimestamp e.created_at) cutoff
    deleted_count := l.countP fun e => strLt (sqliteTimestamp e.created_at) cutoff
    returned := none }

/-!
Date parsing.  `is_recent_job` tries `datetime.strptime` with the formats
`'%B %d, %Y'`, `'%b %d, %Y'`, `'%Y-%m-%d'`, `'%m/%d/%Y'` in order and keeps
the first that succeeds.  CPython's `_strptime` compiles a format to a
regex: `%Y` is exactly four digits, `%m` matches `1[0-2]|0[1-9]|[1-9]`,
`%d` matches `3[01]|[12]\d|0[1-9]|[1-9]`, a literal whitespace in the
format matches one or more whitespace characters, month names match
case-insensitively, the whole string must be consumed, and the resulting
numbers must form a valid calendar date (otherwise `datetime` raises
`ValueError` and the next format is tried).  In each of the four formats
every variable-width token is followed by a non-digit, non-whitespace,
non-letter context, so a greedy first-alternative matcher is equivalent to
the regex; the parsers below are written that way over `List Char`.
-/

/-- Python `\s` on ASCII: space, tab, newline, vertical tab, form feed,
carriage return. -/
def isPySpace (c : Char) : Bool :=
  c = ' ' || c.toNat = 9 || c.toNat = 10 || c.toNat = 11 || c.toNat = 12 || c.toNat = 13

/-- Drop a maximal run of whitespace. -/
def skipSpaces : List Char → List Char
  | c :: rest => if isPySpace c then skipSpaces rest else c :: rest
  | [] => []

/-- Match `\s+`: at least one whitespace character, consumed greedily. -/
def matchSpaces1 : List Char → Option (List Char)
  | c :: rest => if isPySpace c then some (skipSpaces rest) else none
  | [] => none

/-- Numeric value of a digit character. -/
def charVal (c : Char) : Nat := c.toNat - 48

/-- Match a literal character of the format string. -/
def matchLit (c : Char) : List Char → Option (List Char)
  | x :: rest => if x = c then some rest else none
  | [] => none

/-- Match `%Y`: exactly four digits. -/
def matchYear4 : List Char → Option (Nat × List Char)
  | a :: b :: c :: d :: rest =>
    if a.isDigit && b.isDigit && c.isDigit && d.isDigit then
      some (charVal a * 1000 + charVal b * 100 + charVal c * 10 + charVal d, rest)
    else none
  | _ => none

/-- Match `%m`: the regex `1[0-2]|0[1-9]|[1-9]`. -/
def matchMonthNum : List Char → Option (Nat × List Char)
  | [] => none
  | [c] => if c.isDigit && c ≠ '0' then some (charVal c, []) else none
  | c :: c2 :: rest =>
    if c = '1' && ('0' ≤ c2 && c2 ≤ '2') then some (10 + charVal c2, rest)
    else if c = '0' && ('1' ≤ c2 && c2 ≤ '9') then some (charVal c2, rest)
    else if c.isDigit && c ≠ '0' then some (charVal c, c2 :: rest)
    else none

/-- Match `%d`: the regex `3[01]|[12]\d|0[1-9]|[1-9]`. -/
def matchDayNum : List Char → Option (Nat × List Char)
  | [] => none
  | [c] => if c.isDigit && c ≠ '0' then some (charVal c, []) else none
  | c :: c2 :: rest =>
    if c = '3' && (c2 = '0' || c2 = '1') then some (30 + charVal c2, rest)
    else if (c = '1' || c = '2') && c2.isDigit then some (charVal c * 10 + charVal c2, rest)
    else if c = '0' && ('1' ≤ c2 && c2 ≤ '9') then some (charVal c2, rest)
    else if c.isDigit && c ≠ '0' then some (charVal c, c2 :: rest)
    else none

/-- Case-insensitively strip an expected (lowercase) name from the front of
the input. -/
def stripNameCI : List Char → List Char → Option (List Char)
  | [], cs => some cs
  | _ :: _, [] => none
  | p :: ps, c :: cs => if c.toLower = p then stripNameCI ps cs else none

/-- Full month names, as matched by `%B`. -/
def monthNamesFull : List (String × Nat) :=
  [("january", 1), ("february", 2), ("march", 3), ("april", 4), ("may", 5),
   ("june", 6), ("july", 7), ("august", 8), ("september", 9), ("october", 10),
   ("november", 11), ("december", 12)]

/-- Abbreviated month names, as matched by `%b`. -/
def monthNamesAbbr : List (String × Nat) :=
  [("jan", 1), ("feb", 2), ("mar", 3), ("apr", 4), ("may", 5), ("jun", 6),
   ("jul", 7), ("aug", 8), ("sep", 9), ("oct", 10), ("nov", 11), ("dec", 12)]

/-- Match a month name from the given table, case-insensitively. -/
def matchMonthName (names : List (String × Nat)) (cs : List Char) : Option (Nat × List Char) :=
  match names with
  | [] => none
  | (nm, v) :: rest =>
    match stripNameCI nm.toList cs with
    | some cs2 => some (v, cs2)
    | none => matchMonthName rest cs

/-- Gregorian leap year. -/
def isLeapYear (y : Nat) : Bool := (y % 4 = 0 && y % 100 ≠ 0) || y % 400 = 0

/-- Length of a month. -/
def daysInMonth (y m : Nat) : Nat :=
  if m = 2 then (if isLeapYear y then 29 else 28)
  else if m = 4 || m = 6 || m = 9 || m = 11 then 30
  else 31

/-- `datetime(year, month, day)` validation: `ValueError` outside the
calendar (modelled as `none`); on success the time-of-day defaults to
midnight. -/
def mkValidDate (y m d : Nat) : Option PyDateTime :=
  if 1 ≤ y && 1 ≤ m && m ≤ 12 && 1 ≤ d && d ≤ daysInMonth y m then
    some ⟨y, m, d, 0, 0, 0⟩
  else none

/-- `strptime` with format `'%B %d, %Y'` (or `'%b %d, %Y'` when given the
abbreviated table). -/
def strptimeMonthNameFmt (names : List (String × Nat)) (cs : List Char) : Option PyDateTime :=
  match matchMonthName names cs with
  | none => none
  | some (m, cs) =>
    match matchSpaces1 cs with
    | none => none
    | some cs =>
      match matchDayNum cs with
      | none => none
      | some (d, cs) =>
        match matchLit ',' cs with
        | none => none
        | some cs =>
          match matchSpaces1 cs with
          | none => none
          | some cs =>
            match matchYear4 cs with
            | some (y, []) => mkValidDate y m d
            | _ => none

/-- `strptime` with format `'%Y-%m-%d'`. -/
def strptimeYmdFmt (cs : List Char) : Option PyDateTime :=
  match matchYear4 cs with
  | none => none
  | some (y, cs) =>
    match matchLit '-' cs with
    | none => none
    | some cs =>
      match matchMonthNum cs with
      | none => none
      | some (m, cs) =>
        match matchLit '-' cs with
        | none => none
        | some cs =>
          match matchDayNum cs with
          | some (d, []) => mkValidDate y m d
          | _ => none

/-- `strptime` with format `'%m/%d/%Y'`. -/
def strptimeMdyFmt (cs : List Char) : Option PyDateTime :=
  match matchMonthNum cs with
  | none => none
  | some (m, cs) =>
    match matchLit '/' cs with
    | none => none
    | some cs =>
      match matchDayNum cs with
      | none => none
      | some (d, cs) =>
        match matchLit '/' cs with
        | none => none
        | some cs =>
          match matchYear4 cs with
          | some (y, []) => mkValidDate y m d
          | _ => none

/-- The `date_formats` loop of `is_recent_job`: try the four formats in
order, first successful parse wins. -/
def parsePostedDate (s : String) : Option PyDateTime :=
  let cs := s.toList
  match strptimeMonthNameFmt monthNamesFull cs with
  | some d => some d
  | none =>
    match strptimeMonthNameFmt monthNamesAbbr cs with
    | some d => some d
    | none =>
      match strptimeYmdFmt cs with
      | some d => some d
      | none => strptimeMdyFmt cs

/-- `is_recent_job`: unparsable dates are not recent; otherwise the job is
recent iff `(now - posted_date).total_seconds() <= 24*60*60`. -/
def is_recent_job (now : PyDateTime) (posted_date_str : String) : Bool :=
  match parsePostedDate posted_date_str with
  | none => false
  | some posted => decide (toSeconds now - toSeconds posted ≤ 24 * 60 * 60)

/-- Python `str.lower`, on the ASCII range relevant to the role keywords. -/
def lowerStr (s : String) : String := String.mk (s.toList.map Char.toLower)

/-- Whether `pat` is a prefix of `cs`. -/
def listStartsWith : List Char → List Char → Bool
  | [], _ => true
  | _ :: _, [] => false
  | a :: as, b :: bs => decide (a = b) && listStartsWith as bs

/-- Python's `needle in hay` substring test on char lists. -/
def containsAux (needle : List Char) : List Char → Bool
  | [] => needle.isEmpty
  | c :: rest => listStartsWith needle (c :: rest) || containsAux needle rest

/-- Python's `needle in hay` substring test on strings. -/
def pyIn (needle hay : String) : Bool := containsAux needle.toList hay.toList

/-- The keyword list of the role check in `filter_sde1_jobs`. -/
def sde1Keywords : List String := ["sde 1", "software development engineer i", "sde i"]

/-- The role check: `any(keyword in title for keyword in [...])` on the
lowercased title (`job.get('title', '').lower()`). -/
def titleMatches (j : JobRecord) : Bool :=
  sde1Keywords.any fun k => pyIn k (lowerStr (j.title.getD ""))

/-- The `job_data` dict built for a record that passes all three checks. -/
def mkNotifiable (j : JobRecord) : NotifiableJob :=
  { job_id := j.id_icims.getD ""
    title := j.title.getD "N/A"
    location := j.location.getD "N/A"
    posted_date := j.posted_date.getD ""
    url := "https://www.amazon.jobs/en/jobs/" ++ j.id_icims.getD "" ++ "/apply" }

/-- `filter_sde1_jobs`: the loop over the raw records, with each `continue`
branch of the source as a skip. -/
def filter_sde1_jobs (l : Ledger) (now : PyDateTime) : List JobRecord → List NotifiableJob
  | [] => []
  | j :: rest =>
    if titleMatches j then
      if is_recent_job now (j.posted_date.getD "") then
        if is_job_seen l (j.id_icims.getD "") then filter_sde1_jobs l now rest
        else mkNotifiable j :: filter_sde1_jobs l now rest
      else filter_sde1_jobs l now rest
    else filter_sde1_jobs l now rest

/-- Conjunction of the three per-record checks of `filter_sde1_jobs`, in
source order: role keyword in the title, fresh posted date, identifier not
yet in the ledger. -/
def passesFilter (l : Ledger) (now : PyDateTime) (j : JobRecord) : Bool :=
  titleMatches j && is_recent_job now (j.posted_date.getD "")
    && !is_job_seen l (j.id_icims.getD "")

/-- Outcome of the HTTP GET in `fetch_jobs`: a parsed JSON body whose
`jobs` key may be absent (`data.get('jobs', [])`), or one of the three
handled failure classes. -/
inductive FetchOutcome where
  | success (payload : Option (List JobRecord))
  | networkError
  | jsonDecodeError
  | otherError
deriving DecidableEq, Repr

/-- `fetch_jobs`: the `jobs` array of the response on success, the empty
list on any failure. -/
def fetch_jobs : FetchOutcome → List JobRecord
  | .success payload => payload.getD []
  | .networkError => []
  | .jsonDecodeError => []
  | .otherError => []

/-- The notify-and-record loop of `run_scraping_cycle`: deliver each job in
order; on success record it (write time `t`) and move on, on failure just
move on.  Returns the ledger and the list of jobs whose delivery
succeeded. -/
def processJobs (notify : NotifiableJob → Bool) (t : PyDateTime) :
    List NotifiableJob → Ledger → Ledger × List NotifiableJob
  | [], l => (l, [])
  | j :: rest, l =>
    if notify j then
      let r := processJobs notify t rest (mark_job_as_seen l j t)
      (r.1, j :: r.2)
    else processJobs notify t rest l

/-- `run_scraping_cycle`: fetch (given here as the already-fetched list),
early-return on an empty fetch or an empty filter result, notify-and-record
each filtered job, and prune with a 30-day horizon when the wall clock is
in the first 15 minutes after midnight.  Returns the final ledger and the
list of jobs notified this cycle. -/
def run_scraping_cycle (fetched : List JobRecord) (notify : NotifiableJob → Bool)
    (l : Ledger) (now : PyDateTime) : Ledger × List NotifiableJob :=
  if fetched.isEmpty then (l, [])
  else
    let new_jobs := filter_sde1_jobs l now fetched
    if new_jobs.isEmpty then (l, [])
    else
      let r := processJobs notify now new_jobs l
      let l2 := if now.hour = 0 ∧ now.minute < 15 then (cleanup_old_jobs r.1 now 30).ledger else r.1
      (l2, r.2)

/-- Record every job of the list in order, at write time `t`. -/
def recordAll (t : PyDateTime) (l : Ledger) (js : List NotifiableJob) : Ledger :=
  js.foldl (fun acc j => mark_job_as_seen acc j t) l

/-!
Concrete sample data for witnesses and counterexamples.
-/

/-- A wall-clock instant: 2023-12-08, noon. -/
def scenarioNow : PyDateTime := ⟨2023, 12, 8, 12, 0, 0⟩

/-- An earlier write time: 2023-12-08, midnight. -/
def writeTimeA : PyDateTime := ⟨2023, 12, 8, 0, 0, 0⟩

/-- A later write time: 2023-12-09, midnight. -/
def writeTimeB : PyDateTime := ⟨2023, 12, 9, 0, 0, 0⟩

/-- The raw record of the spec scenario: an SDE-1 job posted "today". -/
def sdeJobRecord : JobRecord :=
  ⟨some "2460001", some "Software Development Engineer I", some "Seattle, WA, USA",
   some "December 8, 2023"⟩

/-- A fresh, role-matching record with its own identifier. -/
def freshRec : JobRecord := ⟨some "999", some "SDE 1", some "Remote", some "2023-12-08"⟩

/-- A fresh, role-matching record whose delivery the sample notifier
rejects. -/
def failRec : JobRecord := ⟨some "777", some "SDE 1 gamma", some "Dublin", some "2023-12-08"⟩

/-- A fresh record whose title has no role-keyword match. -/
def nonMatchRec : JobRecord :=
  ⟨some "5", some "Senior Data Engineer", some "Berlin", some "2023-12-08"⟩

/-- A role-matching record with no `id_icims` field. -/
def noIdRec : JobRecord := ⟨none, some "SDE 1 opening", some "Remote", some "2023-12-08"⟩

/-- First of two eligible raw records sharing one identifier. -/
def dupRecA : JobRecord := ⟨some "2460100", some "SDE 1 alpha", some "Austin, TX", some "2023-12-08"⟩

/-- Second of two eligible raw records sharing one identifier. -/
def dupRecB : JobRecord := ⟨some "2460100", some "SDE 1 beta", some "Austin, TX", some "2023-12-08"⟩

/-- A notifier whose delivery succeeds only for the title `SDE 1 alpha`. -/
def pickyNotify : NotifiableJob → Bool := fun nj => decide (nj.title = "SDE 1 alpha")

/-- A ledger row recorded at the Unix epoch, far past any retention
horizon measured from `scenarioNow`. -/
def oldEntry : LedgerEntry := ⟨"1111", "SDE 1", "X", "2023-01-01", 0⟩

/-- A ledger row recorded the day before `scenarioNow`. -/
def newEntry : LedgerEntry := ⟨"2222", "SDE 1", "Y", "2023-12-07", toSeconds ⟨2023, 12, 7, 0, 0, 0⟩⟩

/-- A ledger row recorded (in UTC) six hours after the instant thirty days
before `scenarioNow`: strictly newer than the 30-day threshold, but on the
cutoff's own calendar day. -/
def sameDayEntry : LedgerEntry :=
  ⟨"3333", "SDE 1", "Z", "November 8, 2023", toSeconds ⟨2023, 11, 8, 18, 0, 0⟩⟩

/-!
Helper lemmas shared between the claim theorems.
-/

/-- The filtering loop is the filter by the three checks, mapped to
`job_data` dicts. -/
theorem filter_sde1_jobs_eq (l : Ledger) (now : PyDateTime) (jobs : List JobRecord) :
    filter_sde1_jobs l now jobs = (jobs.filter (passesFilter l now)).map mkNotifiable := by
  induction jobs with
  | nil => rfl
  | cons j rest ih =>
    simp only [filter_sde1_jobs, List.filter_cons, passesFilter]
    by_cases ht : titleMatches j = true <;>
      by_cases hr : is_recent_job now (j.posted_date.getD "") = true <;>
        by_cases hs : is_job_seen l (j.id_icims.getD "") = true <;>
          simp [ht, hr, hs, ih]

/-- Membership form of `filter_sde1_jobs_eq`. -/
theorem mem_filter_sde1_jobs {l : Ledger} {now : PyDateTime} {jobs : List JobRecord}
    {nj : NotifiableJob} :
    nj ∈ filter_sde1_jobs l now jobs ↔
      ∃ j, j ∈ jobs ∧ passesFilter l now j = true ∧ mkNotifiable j = nj := by
  rw [filter_sde1_jobs_eq]
  simp [List.mem_filter, and_assoc]

/-- The identifier of the built `job_data`. -/
theorem mkNotifiable_job_id (j : JobRecord) :
    (mkNotifiable j).job_id = j.id_icims.getD "" := rfl

/-- A record that passes the filter has an identifier that is unseen. -/
theorem passesFilter_seen_false {l : Ledger} {now : PyDateTime} {j : JobRecord}
    (h : passesFilter l now j = true) : is_job_seen l (j.id_icims.getD "") = false := by
  simp only [passesFilter, Bool.and_eq_true, Bool.not_eq_true'] at h
  exact h.2

/-- A record whose title has no keyword match fails the filter checks. -/
theorem passesFilter_of_no_title {l : Ledger} {now : PyDateTime} {j : JobRecord}
    (h : titleMatches j = false) : passesFilter l now j = false := by
  simp [passesFilter, h]

/-- After a record, the recorded identifier is present. -/
theorem is_job_seen_mark_self (l : Ledger) (jd : NotifiableJob) (t : PyDateTime) :
    is_job_seen (mark_job_as_seen l jd t) jd.job_id = true := by
  simp [is_job_seen, mark_job_as_seen, entryOf]

/-- Recording leaves presence of every other identifier unchanged. -/
theorem is_job_seen_mark_ne (l : Ledger) (jd : NotifiableJob) (t : PyDateTime)
    {id : String} (h : id ≠ jd.job_id) :
    is_job_seen (mark_job_as_seen l jd t) id = is_job_seen l id := by
  simp only [is_job_seen, mark_job_as_seen, List.any_append, List.any_filter]
  have hentry : (List.any [entryOf jd t] fun e => decide (e.job_id = id)) = false := by
    simp only [List.any_cons, List.any_nil, Bool.or_false, decide_eq_false_iff_not, entryOf]
    exact fun h2 => h h2.symm
  rw [hentry, Bool.or_false]
  congr 1
  funext e
  by_cases he : e.job_id = jd.job_id <;> by_cases he2 : e.job_id = id <;>
    simp_all

/-- Recording a batch of jobs none of which carries `id` leaves presence of
`id` unchanged. -/
theorem is_job_seen_recordAll_ne (t : PyDateTime) (js : List NotifiableJob)
    {id : String} (h : ∀ j, j ∈ js → id ≠ j.job_id) :
    ∀ l, is_job_seen (recordAll t l js) id = is_job_seen l id := by
  induction js with
  | nil => intro l; rfl
  | cons j rest ih =>
    intro l
    have h1 : id ≠ j.job_id := h j (by simp)
    have h2 : ∀ j2, j2 ∈ rest → id ≠ j2.job_id := fun j2 hj2 => h j2 (by simp [hj2])
    simp only [recordAll, List.foldl_cons]
    rw [show (List.foldl (fun acc j2 => mark_job_as_seen acc j2 t)
        (mark_job_as_seen l j t) rest) = recordAll t (mark_job_as_seen l j t) rest from rfl,
      ih h2, is_job_seen_mark_ne _ _ _ h1]

/-- Pruning never makes an identifier appear. -/
theorem is_job_seen_cleanup (l : Ledger) (now : PyDateTime) (d : Nat) {id : String}
    (h : is_job_seen l id = false) :
    is_job_seen (cleanup_old_jobs l now d).ledger id = false := by
  simp only [is_job_seen, cleanup_old_jobs, List.any_eq_false] at h ⊢
  intro e he
  exact h e (List.mem_of_mem_filter he)

/-- After a record, the stored row for the identifier is the row just
written. -/
theorem getEntry_mark_self (l : Ledger) (jd : NotifiableJob) (t : PyDateTime) :
    getEntry (mark_job_as_seen l jd t) jd.job_id = some (entryOf jd t) := by
  simp only [getEntry, mark_job_as_seen]
  induction l with
  | nil => simp [entryOf]
  | cons e rest ih =>
    by_cases he : e.job_id = jd.job_id
    · simpa [List.filter_cons, he] using ih
    · simpa [List.filter_cons, he, List.find?] using ih

/-- The notify-and-record loop records exactly the successfully delivered
jobs, in order, and reports exactly those jobs as sent. -/
theorem processJobs_eq (notify : NotifiableJob → Bool) (t : PyDateTime)
    (js : List NotifiableJob) :
    ∀ l, processJobs notify t js l =
      (recordAll t l (js.filter notify), js.filter notify) := by
  induction js with
  | nil => intro l; rfl
  | cons j rest ih =>
    intro l
    cases hn : notify j <;>
      simp [processJobs, List.filter_cons, recordAll, hn, ih]

/-- Shape of a full cycle when the fetch and the filter both produce
something: the successfully delivered jobs are recorded, then the ledger is
pruned when the clock is inside the daily window. -/
theorem run_scraping_cycle_eq (fetched : List JobRecord) (notify : NotifiableJob → Bool)
    (l : Ledger) (now : PyDateTime)
    (hfe : fetched.isEmpty = false)
    (hne : (filter_sde1_jobs l now fetched).isEmpty = false) :
    run_scraping_cycle fetched notify l now =
      (if now.hour = 0 ∧ now.minute < 15 then
        (cleanup_old_jobs
          (recordAll now l ((filter_sde1_jobs l now fetched).filter notify)) now 30).ledger
       else recordAll now l ((filter_sde1_jobs l now fetched).filter notify),
       (filter_sde1_jobs l now fetched).filter notify) := by
  unfold run_scraping_cycle
  simp only [hfe, hne, Bool.false_eq_true, if_false, processJobs_eq]

/-- Equal heads pass bytewise comparison to the tails. -/
theorem listLt_cons_same (c : Char) (u v : List Char) :
    listLt (c :: u) (c :: v) = listLt u v := by
  simp only [listLt]
  rw [if_neg (lt_irrefl c), if_neg (lt_irrefl c)]

/-- Bytewise comparison is asymmetric. -/
theorem listLt_asymm : ∀ a b : List Char, listLt a b = true → listLt b a = false := by
  intro a
  induction a with
  | nil =>
    intro b h
    cases b with
    | nil => simp [listLt] at h
    | cons c cs => rfl
  | cons x xs ih =>
    intro b h
    cases b with
    | nil => simp [listLt] at h
    | cons y ys =>
      simp only [listLt] at h ⊢
      by_cases h1 : x < y
      · rw [if_neg (asymm h1), if_pos h1]
      · by_cases h2 : y < x
        · rw [if_neg h1, if_pos h2] at h
          simp at h
        · rw [if_neg h1, if_neg h2] at h
          rw [if_neg h2, if_neg h1]
          exact ih ys h

/-- Digit characters compare like their digits. -/
theorem digitChar_lt_iff {u v : Nat} (hu : u ≤ 9) (hv : v ≤ 9) :
    digitChar u < digitChar v ↔ u < v := by
  interval_cases u <;> interval_cases v <;> decide

/-- Two-digit zero-padded blocks with arbitrary suffixes compare like
their values, the suffixes deciding ties. -/
theorem listLt_pad2 {a b : Nat} (ha : a ≤ 99) (hb : b ≤ 99) (x y : List Char) :
    listLt (pad2 a ++ x) (pad2 b ++ y) =
      (decide (a < b) || (decide (a = b) && listLt x y)) := by
  simp only [pad2, List.cons_append, List.nil_append, listLt]
  by_cases h1 : a / 10 < b / 10
  · rw [if_pos ((digitChar_lt_iff (by omega) (by omega)).mpr h1)]
    simp [show a < b by omega]
  · by_cases h2 : b / 10 < a / 10
    · rw [if_neg (fun hc => h1 ((digitChar_lt_iff (by omega) (by omega)).mp hc)),
        if_pos ((digitChar_lt_iff (by omega) (by omega)).mpr h2)]
      simp [show ¬ a < b by omega, show ¬ a = b by omega]
    · have hd : a / 10 = b / 10 := by omega
      rw [hd, if_neg (lt_irrefl _), if_neg (lt_irrefl _)]
      by_cases h3 : a % 10 < b % 10
      · rw [if_pos ((digitChar_lt_iff (by omega) (by omega)).mpr h3)]
        simp [show a < b by omega]
      · by_cases h4 : b % 10 < a % 10
        · rw [if_neg (fun hc => h3 ((digitChar_lt_iff (by omega) (by omega)).mp hc)),
            if_pos ((digitChar_lt_iff (by omega) (by omega)).mpr h4)]
          simp [show ¬ a < b by omega, show ¬ a = b by omega]
        · have hm : a % 10 = b % 10 := by omega
          rw [hm, if_neg (lt_irrefl _), if_neg (lt_irrefl _)]
          simp [show a = b by omega]

/-- Four-digit zero-padded blocks with arbitrary suffixes compare like
their values, the suffixes deciding ties. -/
theorem listLt_pad4 {a b : Nat} (ha : a ≤ 9999) (hb : b ≤ 9999) (x y : List Char) :
    listLt (pad4 a ++ x) (pad4 b ++ y) =
      (decide (a < b) || (decide (a = b) && listLt x y)) := by
  simp only [pad4, List.append_assoc]
  rw [listLt_pad2 (by omega) (by omega), listLt_pad2 (by omega) (by omega)]
  by_cases h1 : a / 100 < b / 100
  · simp [h1, show a < b by omega]
  · by_cases h2 : a / 100 = b / 100
    · by_cases h3 : a % 100 < b % 100
      · simp [h1, h2, h3, show a < b by omega]
      · by_cases h4 : a % 100 = b % 100
        · simp [h1, h2, h3, h4, show ¬ a < b by omega, show a = b by omega]
        · simp [h1, h2, h3, h4, show ¬ a < b by omega, show ¬ a = b by omega]
    · simp [h1, h2, show ¬ a < b by omega, show ¬ a = b by omega]

/-- Rendered `YYYY-MM-DD` dates with arbitrary suffixes compare like their
civil dates: strictly earlier calendar day, or equal days with the
suffixes deciding. -/
theorem listLt_dateChars {t1 t2 : Nat × Nat × Nat}
    (h1 : tripleInRange t1) (h2 : tripleInRange t2) (x y : List Char) :
    (listLt (dateChars t1 ++ x) (dateChars t2 ++ y) = true) ↔
      (dateBefore t1 t2 ∨ (t1 = t2 ∧ listLt x y = true)) := by
  obtain ⟨y1, m1, d1⟩ := t1
  obtain ⟨y2, m2, d2⟩ := t2
  obtain ⟨hy1, hm1, hd1⟩ := h1
  obtain ⟨hy2, hm2, hd2⟩ := h2
  simp only [dateChars, List.append_assoc, List.cons_append]
  rw [listLt_pad4 hy1 hy2, listLt_cons_same, listLt_pad2 hm1 hm2, listLt_cons_same,
    listLt_pad2 hd1 hd2]
  simp only [dateBefore, Prod.mk.injEq, Bool.or_eq_true, Bool.and_eq_true,
    decide_eq_true_eq]
  tauto

/-- The stored `CURRENT_TIMESTAMP` string sorts below the cutoff's
isoformat string exactly when the stored instant's calendar day is on or
before the cutoff instant's calendar day: differing days are decided by
the zero-padded date prefix, and on equal days the space/`T` separator
always decides in favor of the stored side. -/
theorem strLt_timestamp_iff {s c : Int}
    (hbs : tripleInRange (dateTriple s)) (hbc : tripleInRange (dateTriple c)) :
    strLt (sqliteTimestamp s) (pyIsoformat c) = true ↔
      (dateBefore (dateTriple s) (dateTriple c) ∨ dateTriple s = dateTriple c) := by
  have hsep : ∀ u v : List Char, listLt (' ' :: u) ('T' :: v) = true := by
    intro u v
    simp only [listLt]
    rw [if_pos (by decide : (' ' : Char) < 'T')]
  show listLt (dateChars (dateTriple s) ++ ' ' :: timeChars s)
      (dateChars (dateTriple c) ++ 'T' :: timeChars c) = true ↔ _
  rw [listLt_dateChars hbs hbc]
  simp [hsep]

/-- Calendar-day trichotomy: on or before a day is the negation of the
reverse strict order. -/
theorem dateBefore_iff_not (t1 t2 : Nat × Nat × Nat) :
    (dateBefore t1 t2 ∨ t1 = t2) ↔ ¬ dateBefore t2 t1 := by
  obtain ⟨a1, b1, c1⟩ := t1
  obtain ⟨a2, b2, c2⟩ := t2
  simp only [dateBefore, Prod.mk.injEq]
  omega

/-- No calendar day is before itself. -/
theorem dateBefore_irrefl (t : Nat × Nat × Nat) : ¬ dateBefore t t := by
  obtain ⟨a, b, c⟩ := t
  simp [dateBefore]

/-!
Claim theorems.
-/

/-- C1: for every raw list of job records, the Filter returns exactly the
ordered subsequence of records that satisfy all three predicates (title
contains a target-role keyword case-insensitively, posted date is fresh,
identifier absent from the ledger), each mapped to a NotifiableJob; and a
record whose title lacks a keyword match fails the checks regardless of its
date or novelty. -/
theorem C1_filter_contract (l : Ledger) (now : PyDateTime) :
    (∀ jobs : List JobRecord,
        filter_sde1_jobs l now jobs = (jobs.filter (passesFilter l now)).map mkNotifiable) ∧
    (∀ j : JobRecord, titleMatches j = false → passesFilter l now j = false) :=
  ⟨fun jobs => filter_sde1_jobs_eq l now jobs, fun _ h => passesFilter_of_no_title h⟩

/-- Witness for C1 at a concrete two-record list, with the keyword-less
record (`nonMatchRec`) fresh and novel. -/
theorem C1_filter_contract_witness :
    filter_sde1_jobs [] scenarioNow [nonMatchRec, sdeJobRecord] =
      ([nonMatchRec, sdeJobRecord].filter (passesFilter [] scenarioNow)).map mkNotifiable ∧
    passesFilter [] scenarioNow nonMatchRec = false :=
  ⟨(C1_filter_contract [] scenarioNow).1 [nonMatchRec, sdeJobRecord],
   (C1_filter_contract [] scenarioNow).2 nonMatchRec (by decide)⟩

/-- C2: every NotifiableJob produced by the Filter has an identifier absent
from the ledger (so records already present are excluded even when role-
and date-eligible); after recording a notified job, re-running the Filter
on any raw list yields no NotifiableJob with that identifier; and on the
spec scenario (one fresh SDE-1 record at an unseen identifier) the Filter
yields exactly one NotifiableJob before recording and zero after. -/
theorem C2_novelty_idempotent :
    (∀ (l : Ledger) (now : PyDateTime) (jobs : List JobRecord) (nj : NotifiableJob),
        nj ∈ filter_sde1_jobs l now jobs → is_job_seen l nj.job_id = false) ∧
    (∀ (l : Ledger) (t now : PyDateTime) (jobs : List JobRecord) (nj nj' : NotifiableJob),
        nj' ∈ filter_sde1_jobs (mark_job_as_seen l nj t) now jobs → nj'.job_id ≠ nj.job_id) ∧
    filter_sde1_jobs [] scenarioNow [sdeJobRecord] = [mkNotifiable sdeJobRecord] ∧
    filter_sde1_jobs (mark_job_as_seen [] (mkNotifiable sdeJobRecord) scenarioNow)
      scenarioNow [sdeJobRecord] = [] := by
  have h1 : ∀ (l : Ledger) (now : PyDateTime) (jobs : List JobRecord) (nj : NotifiableJob),
      nj ∈ filter_sde1_jobs l now jobs → is_job_seen l nj.job_id = false := by
    intro l now jobs nj hmem
    obtain ⟨j, _, hp, hmk⟩ := mem_filter_sde1_jobs.mp hmem
    rw [← hmk, mkNotifiable_job_id]
    exact passesFilter_seen_false hp
  refine ⟨h1, ?_, by decide, by decide⟩
  intro l t now jobs nj nj' hmem heq
  have h2 := h1 _ _ _ _ hmem
  rw [heq, is_job_seen_mark_self] at h2
  cases h2

/-- Witness for C2: the general parts applied at concrete inputs. -/
theorem C2_novelty_idempotent_witness :
    is_job_seen ([] : Ledger) (mkNotifiable sdeJobRecord).job_id = false ∧
    (mkNotifiable freshRec).job_id ≠ (mkNotifiable sdeJobRecord).job_id :=
  ⟨C2_novelty_idempotent.1 [] scenarioNow [sdeJobRecord] (mkNotifiable sdeJobRecord) (by decide),
   C2_novelty_idempotent.2.1 [] scenarioNow scenarioNow [freshRec] (mkNotifiable sdeJobRecord)
     (mkNotifiable freshRec) (by decide)⟩

/-- C4: on any fetch failure the Fetcher returns the empty list, and the
Cycle Controller then finishes the cycle with an unchanged ledger and an
empty list of notifications. -/
theorem C4_fetch_failure_noop (o : FetchOutcome)
    (h : ∀ payload, o ≠ FetchOutcome.success payload) :
    fetch_jobs o = [] ∧
    ∀ (notify : NotifiableJob → Bool) (l : Ledger) (now : PyDateTime),
      run_scraping_cycle (fetch_jobs o) notify l now = (l, []) := by
  cases o with
  | success payload => exact absurd rfl (h payload)
  | networkError => exact ⟨rfl, fun _ _ _ => rfl⟩
  | jsonDecodeError => exact ⟨rfl, fun _ _ _ => rfl⟩
  | otherError => exact ⟨rfl, fun _ _ _ => rfl⟩

/-- Witness for C4 at a network failure. -/
theorem C4_fetch_failure_noop_witness :
    fetch_jobs FetchOutcome.networkError = [] ∧
    run_scraping_cycle (fetch_jobs FetchOutcome.networkError) pickyNotify [oldEntry]
      scenarioNow = ([oldEntry], []) :=
  ⟨(C4_fetch_failure_noop FetchOutcome.networkError
      (fun _ h => FetchOutcome.noConfusion h)).1,
   (C4_fetch_failure_noop FetchOutcome.networkError
      (fun _ h => FetchOutcome.noConfusion h)).2 pickyNotify [oldEntry] scenarioNow⟩

/-- C5: recording a job and then checking presence of its identifier
returns true (the model has no storage-failure path, matching the claim's
assumption). -/
theorem C5_ledger_roundtrip (l : Ledger) (jd : NotifiableJob) (t : PyDateTime) :
    is_job_seen (mark_job_as_seen l jd t) jd.job_id = true :=
  is_job_seen_mark_self l jd t

/-- C6 counterexample: an entry recorded on the cutoff's calendar day but
strictly newer than now minus the retention threshold is nevertheless
deleted — the stored UTC `YYYY-MM-DD HH:MM:SS` string sorts below the
local `YYYY-MM-DDTHH:MM:SS` cutoff because space sorts before `T` — and
the operation returns `None`, not the deleted count. -/
theorem C6_prune_counterexample :
    toSeconds scenarioNow - 30 * 86400 < sameDayEntry.created_at ∧
    (cleanup_old_jobs [sameDayEntry] scenarioNow 30).ledger = [] ∧
    (cleanup_old_jobs [sameDayEntry] scenarioNow 30).deleted_count = 1 ∧
    (cleanup_old_jobs [sameDayEntry] scenarioNow 30).returned ≠ some 1 := by decide

/-- C6 (amended): the prune's TEXT comparison deletes exactly those
entries whose stored timestamp's calendar day is on or before the cutoff
instant's calendar day — including same-day entries newer than the
threshold — keeps exactly the entries of strictly later calendar days,
and returns no value (the deleted count is only logged). -/
theorem C6_prune_calendar_day (l : Ledger) (now : PyDateTime) (d : Nat) (e : LedgerEntry)
    (he : e ∈ l)
    (hbe : tripleInRange (dateTriple e.created_at))
    (hbc : tripleInRange (dateTriple (toSeconds now - (d : Int) * 86400))) :
    (e ∈ (cleanup_old_jobs l now d).ledger ↔
      dateBefore (dateTriple (toSeconds now - (d : Int) * 86400))
        (dateTriple e.created_at)) ∧
    (dateTriple e.created_at = dateTriple (toSeconds now - (d : Int) * 86400) →
      e ∉ (cleanup_old_jobs l now d).ledger) ∧
    (cleanup_old_jobs l now d).returned = none := by
  have hmem : e ∈ (cleanup_old_jobs l now d).ledger ↔
      strLt (sqliteTimestamp e.created_at)
        (pyIsoformat (toSeconds now - (d : Int) * 86400)) = false := by
    simp [cleanup_old_jobs, List.mem_filter, he]
  have hiff := strLt_timestamp_iff hbe hbc
  have hfalse : strLt (sqliteTimestamp e.created_at)
      (pyIsoformat (toSeconds now - (d : Int) * 86400)) = false ↔
      dateBefore (dateTriple (toSeconds now - (d : Int) * 86400))
        (dateTriple e.created_at) := by
    constructor
    · intro h0
      by_contra hnb
      have h1 := hiff.mpr ((dateBefore_iff_not _ _).mpr hnb)
      rw [h0] at h1
      simp at h1
    · intro hb
      cases hst : strLt (sqliteTimestamp e.created_at)
          (pyIsoformat (toSeconds now - (d : Int) * 86400)) with
      | false => rfl
      | true => exact absurd hb ((dateBefore_iff_not _ _).mp (hiff.mp hst))
  refine ⟨hmem.trans hfalse, ?_, rfl⟩
  intro heq
  rw [hmem.trans hfalse, heq]
  exact dateBefore_irrefl _

/-- Witness for C6 (amended): the entry from the day after the cutoff's
calendar day survives the prune, and the operation returns nothing. -/
theorem C6_prune_calendar_day_witness :
    (newEntry ∈ (cleanup_old_jobs [sameDayEntry, newEntry] scenarioNow 30).ledger ↔
      dateBefore (dateTriple (toSeconds scenarioNow - (30 : Int) * 86400))
        (dateTriple newEntry.created_at)) ∧
    (cleanup_old_jobs [sameDayEntry, newEntry] scenarioNow 30).returned = none :=
  ⟨(C6_prune_calendar_day [sameDayEntry, newEntry] scenarioNow 30 newEntry (by decide)
      (by decide) (by decide)).1,
   (C6_prune_calendar_day [sameDayEntry, newEntry] scenarioNow 30 newEntry (by decide)
      (by decide) (by decide)).2.2⟩

/-- C7 counterexample: re-recording the same job at a later wall-clock time
replaces the stored row and resets its recorded-at timestamp, so the stored
entry is altered by an operation other than the retention sweep. -/
theorem C7_rerecord_counterexample :
    getEntry (mark_job_as_seen (mark_job_as_seen [] (mkNotifiable sdeJobRecord) writeTimeA)
        (mkNotifiable sdeJobRecord) writeTimeB) (mkNotifiable sdeJobRecord).job_id ≠
      getEntry (mark_job_as_seen [] (mkNotifiable sdeJobRecord) writeTimeA)
        (mkNotifiable sdeJobRecord).job_id := by decide

/-- C7 (amended): the record operation is insert-or-replace — re-recording
an identifier overwrites the stored entry with the new fields and resets
its recorded-at timestamp to the new write time. -/
theorem C7_rerecord_overwrites (l : Ledger) (jd : NotifiableJob) (t t' : PyDateTime) :
    getEntry (mark_job_as_seen (mark_job_as_seen l jd t) jd t') jd.job_id
        = some (entryOf jd t') ∧
    (entryOf jd t').created_at = toSeconds t' :=
  ⟨getEntry_mark_self _ jd t', rfl⟩

/-- C8: for every parsable posted date the freshness predicate holds iff
now minus the parsed date is at most 24 hours, and every future-dated
record (negative delta) is accepted as fresh. -/
theorem C8_freshness_iff (now : PyDateTime) (s : String) (dt : PyDateTime)
    (h : parsePostedDate s = some dt) :
    (is_recent_job now s = true ↔ toSeconds now - toSeconds dt ≤ 86400) ∧
    (toSeconds now - toSeconds dt < 0 → is_recent_job now s = true) := by
  simp only [is_recent_job, h, decide_eq_true_eq]
  omega

/-- Witness for C8: a same-day posted date is fresh at noon, and a
future-dated (next-day) posted date is accepted as fresh. -/
theorem C8_freshness_iff_witness :
    parsePostedDate "2023-12-08" = some ⟨2023, 12, 8, 0, 0, 0⟩ ∧
    is_recent_job scenarioNow "2023-12-08" = true ∧
    is_recent_job ⟨2023, 12, 7, 6, 0, 0⟩ "2023-12-08" = true := by
  refine ⟨by decide, ?_, ?_⟩
  · exact (C8_freshness_iff scenarioNow "2023-12-08" ⟨2023, 12, 8, 0, 0, 0⟩
      (by decide)).1.mpr (by decide)
  · exact (C8_freshness_iff ⟨2023, 12, 7, 6, 0, 0⟩ "2023-12-08" ⟨2023, 12, 8, 0, 0, 0⟩
      (by decide)).2 (by decide)

/-- C9: novelty is checked only against the ledger state at filter time, so
two role- and date-eligible records sharing one not-yet-seen identifier are
both kept by the Filter, and a cycle whose deliveries all succeed notifies
that identifier twice. -/
theorem C9_duplicate_id_double_notify (l : Ledger) (now : PyDateTime) (j1 j2 : JobRecord)
    (ht1 : titleMatches j1 = true) (hr1 : is_recent_job now (j1.posted_date.getD "") = true)
    (ht2 : titleMatches j2 = true) (hr2 : is_recent_job now (j2.posted_date.getD "") = true)
    (hid : j1.id_icims.getD "" = j2.id_icims.getD "")
    (hs : is_job_seen l (j1.id_icims.getD "") = false) :
    filter_sde1_jobs l now [j1, j2] = [mkNotifiable j1, mkNotifiable j2] ∧
    (run_scraping_cycle [j1, j2] (fun _ => true) l now).2 =
      [mkNotifiable j1, mkNotifiable j2] ∧
    (mkNotifiable j1).job_id = (mkNotifiable j2).job_id := by
  have hs2 : is_job_seen l (j2.id_icims.getD "") = false := by rw [← hid]; exact hs
  have hf : filter_sde1_jobs l now [j1, j2] = [mkNotifiable j1, mkNotifiable j2] := by
    simp [filter_sde1_jobs, ht1, hr1, hs, ht2, hr2, hs2]
  refine ⟨hf, ?_, ?_⟩
  · rw [run_scraping_cycle_eq [j1, j2] (fun _ => true) l now rfl (by rw [hf]; rfl), hf]
    rfl
  · rw [mkNotifiable_job_id, mkNotifiable_job_id]
    exact hid

/-- Witness for C9 at two concrete records sharing identifier 2460100. -/
theorem C9_duplicate_id_double_notify_witness :
    filter_sde1_jobs [] scenarioNow [dupRecA, dupRecB] =
      [mkNotifiable dupRecA, mkNotifiable dupRecB] ∧
    (run_scraping_cycle [dupRecA, dupRecB] (fun _ => true) [] scenarioNow).2 =
      [mkNotifiable dupRecA, mkNotifiable dupRecB] ∧
    (mkNotifiable dupRecA).job_id = (mkNotifiable dupRecB).job_id :=
  C9_duplicate_id_double_notify [] scenarioNow dupRecA dupRecB (by decide) (by decide)
    (by decide) (by decide) (by decide) (by decide)

/-- C10: a raw record with no `id_icims` field that is role-matching,
fresh, and whose empty identifier is unseen passes the filter checks and is
kept as a NotifiableJob with empty identifier and application URL
`https://www.amazon.jobs/en/jobs//apply`; once any job with the empty
identifier is recorded, every later identifier-less record fails the
checks under the shared empty-string key. -/
theorem C10_missing_id (l : Ledger) (now : PyDateTime) (j : JobRecord)
    (hid : j.id_icims = none) (ht : titleMatches j = true)
    (hr : is_recent_job now (j.posted_date.getD "") = true)
    (hs : is_job_seen l "" = false) :
    passesFilter l now j = true ∧
    filter_sde1_jobs l now [j] = [mkNotifiable j] ∧
    (mkNotifiable j).job_id = "" ∧
    (mkNotifiable j).url = "https://www.amazon.jobs/en/jobs//apply" ∧
    (∀ (nj : NotifiableJob) (t : PyDateTime) (j' : JobRecord),
        nj.job_id = "" → j'.id_icims = none →
        passesFilter (mark_job_as_seen l nj t) now j' = false) := by
  have hgetD : j.id_icims.getD "" = "" := by rw [hid]; rfl
  refine ⟨?_, ?_, ?_, ?_, ?_⟩
  · simp [passesFilter, ht, hr, hgetD, hs]
  · simp [filter_sde1_jobs, ht, hr, hgetD, hs]
  · rw [mkNotifiable_job_id, hgetD]
  · show "https://www.amazon.jobs/en/jobs/" ++ j.id_icims.getD "" ++ "/apply" =
      "https://www.amazon.jobs/en/jobs//apply"
    rw [hgetD]
    decide
  · intro nj t j' hnj hj'
    have hseen : is_job_seen (mark_job_as_seen l nj t) (j'.id_icims.getD "") = true := by
      rw [hj']
      show is_job_seen (mark_job_as_seen l nj t) "" = true
      rw [← hnj]
      exact is_job_seen_mark_self l nj t
    simp [passesFilter, hseen]

/-- Witness for C10 at a concrete identifier-less record. -/
theorem C10_missing_id_witness :
    filter_sde1_jobs [] scenarioNow [noIdRec] = [mkNotifiable noIdRec] ∧
    (mkNotifiable noIdRec).url = "https://www.amazon.jobs/en/jobs//apply" ∧
    passesFilter (mark_job_as_seen [] (mkNotifiable noIdRec) scenarioNow) scenarioNow
      noIdRec = false :=
  ⟨(C10_missing_id [] scenarioNow noIdRec rfl (by decide) (by decide) rfl).2.1,
   (C10_missing_id [] scenarioNow noIdRec rfl (by decide) (by decide) rfl).2.2.2.1,
   (C10_missing_id [] scenarioNow noIdRec rfl (by decide) (by decide) rfl).2.2.2.2
     (mkNotifiable noIdRec) scenarioNow noIdRec (by decide) rfl⟩

/-- C3 counterexample: in a batch with two eligible records sharing one
identifier, where delivery succeeds for the first and fails for the second,
the failed job's identifier ends up in the ledger (written when its twin
was recorded) and the next cycle's filter no longer includes the failed
job — against the claim that the ledger state for a failed job's
identifier is unchanged and the job is retried. -/
theorem C3_notify_failure_counterexample :
    mkNotifiable dupRecB ∈ filter_sde1_jobs [] scenarioNow [dupRecA, dupRecB] ∧
    pickyNotify (mkNotifiable dupRecB) = false ∧
    is_job_seen (run_scraping_cycle [dupRecA, dupRecB] pickyNotify [] scenarioNow).1
        (mkNotifiable dupRecB).job_id = true ∧
    mkNotifiable dupRecB ∉
      filter_sde1_jobs (run_scraping_cycle [dupRecA, dupRecB] pickyNotify [] scenarioNow).1
        scenarioNow [dupRecA, dupRecB] := by decide

/-- C3 (amended): if delivery fails for a filtered job and no other
filtered job carries the same identifier with a successful delivery, then
the cycle controller skips recording it while still processing the rest of
the batch (the sent list is exactly the successfully delivered
subsequence), the final ledger does not contain its identifier, and the
next cycle's filter on the identical raw list still includes it. -/
theorem C3_notify_failure_retry (fetched : List JobRecord) (notify : NotifiableJob → Bool)
    (l : Ledger) (now : PyDateTime) (nj : NotifiableJob)
    (hmem : nj ∈ filter_sde1_jobs l now fetched)
    (hfail : notify nj = false)
    (hall : ∀ nj', nj' ∈ filter_sde1_jobs l now fetched → nj'.job_id = nj.job_id →
      notify nj' = false) :
    (run_scraping_cycle fetched notify l now).2 =
      (filter_sde1_jobs l now fetched).filter notify ∧
    is_job_seen (run_scraping_cycle fetched notify l now).1 nj.job_id = false ∧
    nj ∈ filter_sde1_jobs (run_scraping_cycle fetched notify l now).1 now fetched := by
  have hfe : fetched.isEmpty = false := by
    cases fetched with
    | nil => simp [filter_sde1_jobs] at hmem
    | cons a as => rfl
  have hne : (filter_sde1_jobs l now fetched).isEmpty = false := by
    cases hflt : filter_sde1_jobs l now fetched with
    | nil => rw [hflt] at hmem; cases hmem
    | cons a as => rfl
  have hrw := run_scraping_cycle_eq fetched notify l now hfe hne
  have hne_ids : ∀ j, j ∈ (filter_sde1_jobs l now fetched).filter notify →
      nj.job_id ≠ j.job_id := by
    intro j hj hEq
    have h2 := (List.mem_filter.mp hj).2
    rw [hall j (List.mem_filter.mp hj).1 hEq.symm] at h2
    cases h2
  have hbase : is_job_seen l nj.job_id = false := by
    obtain ⟨j, _, hp, hmk⟩ := mem_filter_sde1_jobs.mp hmem
    rw [← hmk, mkNotifiable_job_id]
    exact passesFilter_seen_false hp
  have hrec : is_job_seen (recordAll now l ((filter_sde1_jobs l now fetched).filter notify))
      nj.job_id = false := by
    rw [is_job_seen_recordAll_ne now _ hne_ids]
    exact hbase
  have hledger : is_job_seen (run_scraping_cycle fetched notify l now).1 nj.job_id = false := by
    rw [hrw]
    by_cases hmid : now.hour = 0 ∧ now.minute < 15
    · rw [if_pos hmid]
      exact is_job_seen_cleanup _ now 30 hrec
    · rw [if_neg hmid]
      exact hrec
  refine ⟨?_, hledger, ?_⟩
  · rw [hrw]
  · obtain ⟨j, hjmem, hp, hmk⟩ := mem_filter_sde1_jobs.mp hmem
    have hid : j.id_icims.getD "" = nj.job_id := by rw [← hmk, mkNotifiable_job_id]
    have h3 : is_job_seen (run_scraping_cycle fetched notify l now).1
        (j.id_icims.getD "") = false := by
      rw [hid]
      exact hledger
    simp only [passesFilter, Bool.and_eq_true, Bool.not_eq_true'] at hp
    have hp2 : passesFilter (run_scraping_cycle fetched notify l now).1 now j = true := by
      simp [passesFilter, hp.1.1, hp.1.2, h3]
    exact mem_filter_sde1_jobs.mpr ⟨j, hjmem, hp2, hmk⟩

/-- Witness for C3 (amended): a single-record batch whose delivery fails. -/
theorem C3_notify_failure_retry_witness :
    (run_scraping_cycle [failRec] (fun _ => false) [] scenarioNow).2 =
      (filter_sde1_jobs [] scenarioNow [failRec]).filter (fun _ => false) ∧
    is_job_seen (run_scraping_cycle [failRec] (fun _ => false) [] scenarioNow).1
        (mkNotifiable failRec).job_id = false ∧
    mkNotifiable failRec ∈
      filter_sde1_jobs (run_scraping_cycle [failRec] (fun _ => false) [] scenarioNow).1
        scenarioNow [failRec] :=
  C3_notify_failure_retry [failRec] (fun _ => false) [] scenarioNow (mkNotifiable failRec)
    (by decide) rfl (fun nj' h1 h2 => rfl)
